import Mathlib

/-!
Shallow embedding of the tuiForms terminal form toolkit (files
`fields.py`, `forms.py`, `exceptions.py`).

Modelling conventions:
- Python `None`-able attributes become `Option`.
- Numeric values (int and float bounds and inputs) are modelled as `Int`;
  every comparison the code performs on them is an order comparison, which
  `Int` reproduces faithfully.
- `datetime.datetime` values are modelled as `Int` as well: the code only
  compares them with `<`, a total order, and formats them for display.
- Python truthiness on a numeric bound (`if self.min_value:`) is `false`
  for `None` and for `0`, modelled by `truthy`.
- Raising is modelled with `Except`; the recoverable `ValidateError` is a
  separate type from the fatal Python exceptions (`TypeError`,
  `ValueError`, `AttributeError`), mirroring the two failure tiers.
- Mutation of a field object is modelled by explicit state passing: a
  setter returns the new state together with an optional raised error, and
  a raised error comes with the unchanged state (the Python exception
  leaves the object untouched).
- Terminal input is modelled as a list of raw strings consumed in order;
  printing is modelled by accumulating the printed lines.
-/

namespace TuiForms

/-- Model of `exceptions.ValidateError`: a recoverable validation failure
carrying a message. -/
structure ValidateError where
  msg : String
deriving DecidableEq, Repr

/-- Fatal (non-`ValidateError`) Python exceptions the code can raise:
`TypeError` from comparing `None` with `>`, `ValueError` from
`DateField.__init__`, `AttributeError` from reading a missing attribute or
calling a method on `None`. -/
inductive PyFatal where
  | typeError
  | valueError
  | attributeError
deriving DecidableEq, Repr

/-- State of an `_InputField` object: `label` and `hint` from the
constructor, `_value` starting as `None` (`fields.py` lines 20-21, 34-37).
`V` is the field's `value_type`. -/
structure FieldState (V : Type) where
  label : String
  hint : Option String
  value : Option V
deriving DecidableEq, Repr

/-- Model of the `_InputField.value` setter (`fields.py` lines 57-64):
`value = self._convert_type(value); e = self.validate(value); if e is
None: self._value = value else: raise e`. The subclass hooks
`_convert_type` and `validate` are the parameters `conv` and `val`.
Returns the field state after the call and the raised error, if any; a
raise leaves the object state as it was. -/
def setValue {V : Type} (conv : String → Except ValidateError V)
    (val : V → Option ValidateError) (st : FieldState V) (raw : String) :
    FieldState V × Option ValidateError :=
  match conv raw with
  | .error e => (st, some e)
  | .ok v =>
    match val v with
    | none => ({ st with value := some v }, none)
    | some e => (st, some e)

/-- Model of `_InputField.render` (`fields.py` lines 66-75): loop reading a
raw line, assigning it to `value`, exiting on success; a `ValidateError`
is caught, its message printed, and the loop repeats. `inputs` is the
stream of lines the user will type, `printed` accumulates printed error
lines. Returns `none` when the stream is exhausted while the loop is
still re-prompting (the real loop would block for more input); by its
type, no `ValidateError` ever escapes. -/
def render {V : Type} (conv : String → Except ValidateError V)
    (val : V → Option ValidateError) :
    List String → FieldState V → List String →
    Option (FieldState V × List String)
  | [], _, _ => none
  | raw :: rest, st, printed =>
    match setValue conv val st raw with
    | (st1, none) => some (st1, printed)
    | (st1, some e) => render conv val rest st1 (printed ++ [e.msg])

/-- The numeric value of a decimal digit character, `none` otherwise. -/
def digitVal (c : Char) : Option Nat :=
  if c.isDigit then some (c.toNat - Char.toNat '0') else none

/-- Decimal reading of a nonempty, all-digit character list. -/
def parseDigits (cs : List Char) : Option Nat :=
  match cs with
  | [] => none
  | _ =>
    cs.foldl (fun acc c =>
      match acc, digitVal c with
      | some n, some d => some (n * 10 + d)
      | _, _ => none) (some 0)

/-- Model of `IntegerField._convert_type`, i.e. `int(value)` on the raw
string (`fields.py` lines 39-45 with `value_type = int`): accept an
optionally negated run of decimal digits, and report failure as the
`ValidateError` the code raises. -/
def intConvert (raw : String) : Except ValidateError Int :=
  match raw.data with
  | '-' :: rest =>
    match parseDigits rest with
    | some n => .ok (-(n : Int))
    | none => .error ⟨"value_type declared does not match with the provided value"⟩
  | cs =>
    match parseDigits cs with
    | some n => .ok ((n : Int))
    | none => .error ⟨"value_type declared does not match with the provided value"⟩

/-- The `min_value` / `max_value` attributes of a `_NumericField`
(`fields.py` lines 85-92). -/
structure NumericBounds where
  min_value : Option Int
  max_value : Option Int
deriving DecidableEq, Repr

/-- Model of `_NumericField.__init__` (`fields.py` lines 89-97): store the
bounds, then evaluate `if self.min_value > self.max_value`. In Python 3
the comparison raises `TypeError` whenever either side is `None`; when it
holds, repair with `self.min_value = self.max_value - 2`. -/
def numericInit (min_value max_value : Option Int) :
    Except PyFatal NumericBounds :=
  match min_value, max_value with
  | some mn, some mx =>
    if mn > mx then .ok ⟨some (mx - 2), some mx⟩ else .ok ⟨some mn, some mx⟩
  | _, _ => .error .typeError

/-- Python truthiness of an optional numeric bound: `None` and `0` are
falsy, every other number is truthy. -/
def truthy (x : Option Int) : Bool :=
  match x with
  | none => false
  | some v => v != 0

/-- Model of `_NumericField.validate` (`fields.py` lines 120-131): the
three truthiness-guarded branches, each returning a `ValidateError` when
its bound check fails, then deferring to `_InputField.validate`, which
returns `None`. Inside a branch the bound is truthy, hence present; its
payload is read with `getD 0`, which is only reached on a `some`. -/
def numericValidate (b : NumericBounds) (value : Int) :
    Option ValidateError :=
  if truthy b.min_value && !truthy b.max_value then
    if !(decide (b.min_value.getD 0 < value)) then
      some ⟨"min_value broken"⟩
    else none
  else if truthy b.max_value && !truthy b.min_value then
    if !(decide (b.max_value.getD 0 > value)) then
      some ⟨"max_value broken"⟩
    else none
  else if truthy b.max_value && truthy b.min_value then
    if !(decide (b.min_value.getD 0 < value) && decide (value < b.max_value.getD 0)) then
      some ⟨"range broken"⟩
    else none
  else none

/-- The bound semantics the spec states for numeric fields, written from
the words of the spec for comparison with `numericValidate`: with only a
lower bound present accept iff `value > min_value`, with only an upper
bound present accept iff `value < max_value`, with both accept iff
strictly between, with neither accept everything. -/
def boundSpec (min_value max_value : Option Int) (value : Int) : Prop :=
  match min_value, max_value with
  | some mn, none => mn < value
  | none, some mx => value < mx
  | some mn, some mx => mn < value ∧ value < mx
  | none, none => True

instance (mn mx : Option Int) (v : Int) : Decidable (boundSpec mn mx v) := by
  unfold boundSpec
  match mn, mx with
  | some _, none => exact inferInstance
  | none, some _ => exact inferInstance
  | some _, some _ => exact inferInstance
  | none, none => exact inferInstance

/-- State of a `DateField` object (`fields.py` lines 210-220): label,
hint, the two optional bounds and the stored value. Dates are modelled as
`Int` (the code only compares them and formats them). -/
structure DateState where
  label : String
  hint : Option String
  earlier_than : Option Int
  later_than : Option Int
  value : Option Int
deriving DecidableEq, Repr

/-- Model of `DateField.__init__` (`fields.py` lines 217-225): store the
bounds; when both are present (datetimes are always truthy) and not
`later_than < earlier_than`, raise `ValueError` - a fatal error, not a
`ValidateError`. -/
def dateInit (label : String) (earlier_than later_than : Option Int)
    (hint : Option String) : Except PyFatal DateState :=
  match earlier_than, later_than with
  | some e, some l =>
    if !(decide (l < e)) then .error .valueError
    else .ok ⟨label, hint, some e, some l, none⟩
  | _, _ => .ok ⟨label, hint, earlier_than, later_than, none⟩

/-- Model of `DateField.validate` (`fields.py` lines 227-244): the three
presence-guarded branches over the date order (datetime truthiness is
presence), then deferring to `_InputField.validate`, which returns
`None`. The bound payloads are read with `getD 0`, only reached on a
`some`. -/
def dateValidate (st : DateState) (value : Int) : Option ValidateError :=
  if st.earlier_than.isSome && !st.later_than.isSome then
    if !(decide (value < st.earlier_than.getD 0)) then
      some ⟨"should be earlier"⟩
    else none
  else if st.later_than.isSome && !st.earlier_than.isSome then
    if !(decide (value > st.later_than.getD 0)) then
      some ⟨"should be later"⟩
    else none
  else if st.later_than.isSome && st.earlier_than.isSome then
    if !(decide (st.later_than.getD 0 < value) && decide (value < st.earlier_than.getD 0)) then
      some ⟨"should be strictly between"⟩
    else none
  else none

/-- Stand-in for `datetime.strftime` with the fixed format string: the
exact rendered text never matters to the claims, only that formatting a
real date succeeds. -/
def fmtDate (d : Int) : String := toString d

/-- `x.strftime(...)` when `x` is an optional datetime: calling the method
on `None` raises `AttributeError`. -/
def strftimeOpt (d : Option Int) : Except PyFatal String :=
  match d with
  | none => .error .attributeError
  | some x => .ok (fmtDate x)

/-- Model of `DateField._formatted_input` (`fields.py` lines 246-262):
build the prompt string; with no hint, the later-only branch formats
`self.earlier_than` - which is `None` in that branch - so the prompt
itself raises `AttributeError` there. -/
def dateFormattedInput (st : DateState) : Except PyFatal String :=
  let label := st.label ++ " - %d.%m.%Y "
  match st.hint with
  | some h => .ok (label ++ "(" ++ h ++ "): ")
  | none =>
    if st.earlier_than.isSome && !st.later_than.isSome then
      (strftimeOpt st.earlier_than).map (fun s => label ++ "(< " ++ s ++ "): ")
    else if st.later_than.isSome && !st.earlier_than.isSome then
      (strftimeOpt st.earlier_than).map (fun s => label ++ "(> " ++ s ++ "): ")
    else if st.later_than.isSome && st.earlier_than.isSome then
      match strftimeOpt st.later_than, strftimeOpt st.earlier_than with
      | .ok a, .ok b => .ok (label ++ "(" ++ a ++ " < n < " ++ b ++ "): ")
      | .error e, _ => .error e
      | _, .error e => .error e
    else .ok (label ++ ": ")

/-- Model of the `value` setter as inherited by `DateField`: conversion is
`DateField._convert_type` (lines 264-270), abstracted as the parameter
`conv` since `strptime` is an external library call; validation is
`dateValidate`. A raise leaves the object state unchanged. -/
def dateSetValue (conv : String → Except ValidateError Int) (st : DateState)
    (raw : String) : DateState × Option ValidateError :=
  match conv raw with
  | .error e => (st, some e)
  | .ok v =>
    match dateValidate st v with
    | none => ({ st with value := some v }, none)
    | some e => (st, some e)

/-- Model of `_InputField.render` as inherited by `DateField`: each
iteration first evaluates `self._formatted_input()` inside the `try`, but
only `ValidateError` is caught, so an `AttributeError` from the prompt
propagates out of `render`. Returns `ok none` when the input stream runs
out while still looping. -/
def dateRender (conv : String → Except ValidateError Int) :
    List String → DateState → Except PyFatal (Option DateState)
  | [], st =>
    match dateFormattedInput st with
    | .error e => .error e
    | .ok _ => .ok none
  | raw :: rest, st =>
    match dateFormattedInput st with
    | .error e => .error e
    | .ok _ =>
      match dateSetValue conv st raw with
      | (st1, none) => .ok (some st1)
      | (st1, some _) => dateRender conv rest st1

/-- Model of `HashedField` read results: Python `hash` returns an `int`,
so the getter's result lives in a different branch of the value universe
than the stored `str`. -/
inductive PyValue where
  | intVal : Int → PyValue
  | strVal : String → PyValue
deriving DecidableEq, Repr

/-- Model of the `HashedField.value` getter (`fields.py` lines 182-187):
return `hash(self._value)`, an integer, for whatever is stored. The hash
function itself is an external parameter: the claims only need that it
returns an `int`. -/
def hashedGet (h : Option String → Int) (st : FieldState String) : PyValue :=
  .intVal (h st.value)

/-- Model of `Form.show_name` (`forms.py` lines 13-15): reading
`self.form_name` when the attribute was never assigned (the class only
annotates it) raises `AttributeError`; when assigned, print the banner iff
the string is truthy (non-empty). Returns the printed lines. -/
def showName (form_name : Option String) : Except PyFatal (List String) :=
  match form_name with
  | none => .error .attributeError
  | some s =>
    if s ≠ "" then .ok ["==========" ++ s.toUpper ++ "=========="]
    else .ok []

/-- The `for field_name, field in self.__get_fields().items()` body of
`Form.show` (`forms.py` lines 20-22): render each registered field on its
own slice of user input, then record `res[field_name] = field.value`.
Returns `none` when some render never completes on its input slice. -/
def showFields {V : Type} (conv : String → Except ValidateError V)
    (val : V → Option ValidateError) :
    List (String × FieldState V × List String) →
    Option (List (String × Option V))
  | [] => some []
  | (n, st, ins) :: rest =>
    match render conv val ins st [] with
    | none => none
    | some (st1, _) =>
      (showFields conv val rest).map (fun m => (n, st1.value) :: m)

/-- Model of `Form.show` (`forms.py` lines 17-23): `show_name()` first
(its `AttributeError` propagates), then render every registered field in
order and collect the result mapping. The outer value is the banner lines
paired with the mapping; the inner `Option` is `none` when a field's
render never completes. -/
def formShow {V : Type} (form_name : Option String)
    (conv : String → Except ValidateError V) (val : V → Option ValidateError)
    (fields : List (String × FieldState V × List String)) :
    Except PyFatal (Option (List String × List (String × Option V))) :=
  (showName form_name).map
    (fun banner => (showFields conv val fields).map (fun m => (banner, m)))

/-! Helper lemmas shared by the proofs. -/

/-- A successful `setValue` call stores exactly the converted, validated
value. -/
theorem setValue_ok_iff {V : Type} (conv : String → Except ValidateError V)
    (val : V → Option ValidateError) (st st1 : FieldState V) (raw : String) :
    setValue conv val st raw = (st1, none) ↔
      ∃ v, conv raw = .ok v ∧ val v = none ∧ st1 = { st with value := some v } := by
  unfold setValue
  split
  · rename_i e heq
    simp [heq, Prod.ext_iff]
  · rename_i v heq
    split
    · rename_i hv
      simp [heq, hv, Prod.ext_iff, eq_comm]
    · rename_i e hv
      simp [heq, hv, Prod.ext_iff]

/-- A `setValue` call that raises leaves the field state unchanged. -/
theorem setValue_error_fst {V : Type} (conv : String → Except ValidateError V)
    (val : V → Option ValidateError) (st st1 : FieldState V) (raw : String)
    (e : ValidateError) (h : setValue conv val st raw = (st1, some e)) :
    st1 = st := by
  unfold setValue at h
  split at h
  · simp only [Prod.mk.injEq] at h
    exact h.1.symm
  · split at h
    · simp only [Prod.mk.injEq] at h
      exact absurd h.2 (by simp)
    · simp only [Prod.mk.injEq] at h
      exact h.1.symm

/-! The claims. -/

/-- Claim C1. The claim states that numeric-field bounds are optional and
construction succeeds with one or no bound. The code evaluates
`self.min_value > self.max_value` unconditionally, and in Python 3 an
order comparison with `None` raises `TypeError`, so construction fails
whenever either bound is absent - contradicting the optional-bound
signature and the repository's own tests, which construct bound-free
fields. This theorem evaluates the embedded constructor at the three
bound-free configurations. -/
theorem C1_numericInit_crashes_without_both_bounds :
    numericInit none none = .error .typeError ∧
    numericInit (some 5) none = .error .typeError ∧
    numericInit none (some 5) = .error .typeError :=
  ⟨rfl, rfl, rfl⟩

/-- Claim C5. With both bounds given and `min_value > max_value`,
construction does not fail: it silently repairs by setting
`min_value = max_value - 2` and keeps `max_value` unchanged. -/
theorem C5_silent_bound_repair (mn mx : Int) (h : mn > mx) :
    numericInit (some mn) (some mx) = .ok ⟨some (mx - 2), some mx⟩ := by
  simp [numericInit, h]

/-- Witness for C5 at `min_value = 10`, `max_value = 3`. -/
theorem C5_silent_bound_repair_witness :
    (10 : Int) > 3 ∧ numericInit (some 10) (some 3) = .ok ⟨some 1, some 3⟩ :=
  ⟨by decide, C5_silent_bound_repair 10 3 (by decide)⟩

/-- Counterexample to claim C3 as stated: with only `min_value` set, and
set to `0`, the value `0` is accepted by `validate` (the truthiness guard
treats the `0` bound as absent), while the claim requires acceptance iff
`0 > 0`. -/
theorem C3_zero_bound_counterexample :
    numericValidate ⟨some 0, none⟩ 0 = none ∧ ¬ boundSpec (some 0) none 0 := by
  refine ⟨rfl, ?_⟩
  simp [boundSpec]

/-- Claim C3, amended: the stated bound semantics (min-only `v > min`,
max-only `v < max`, both strictly between, neither unchecked) hold for
every numeric field whose present bounds are nonzero; a bound equal to
`0` is treated as absent by the truthiness guards. -/
theorem C3_bound_semantics (mn mx : Option Int) (v : Int)
    (hmn : mn ≠ some 0) (hmx : mx ≠ some 0) :
    numericValidate ⟨mn, mx⟩ v = none ↔ boundSpec mn mx v := by
  rcases mn with - | a <;> rcases mx with - | b <;>
    simp_all [numericValidate, truthy, boundSpec]

/-- Witness for C3 (amended) at `min_value = 1`, `max_value = 10`,
`v = 5`. -/
theorem C3_bound_semantics_witness :
    numericValidate ⟨some 1, some 10⟩ 5 = none ↔ boundSpec (some 1) (some 10) 5 :=
  C3_bound_semantics (some 1) (some 10) 5 (by decide) (by decide)

/-- Counterexample to claim C4 as stated: with `min_value = 0` and
`max_value = 0` given, construction succeeds unrepaired, but validation
does not take the max-only branch: the value `5` is accepted although the
claim requires `5 < max_value = 0`. -/
theorem C4_zero_max_counterexample :
    numericInit (some 0) (some 0) = .ok ⟨some 0, some 0⟩ ∧
    numericValidate ⟨some 0, some 0⟩ 5 = none ∧ ¬ ((5 : Int) < 0) := by
  refine ⟨rfl, rfl, by decide⟩

/-- Claim C4, amended: for a numeric field constructed with
`min_value = 0` and a positive `max_value`, validation takes the max-only
branch - a value `v` is accepted iff `v < max_value` and no lower-bound
check applies. (A `max_value` that is `0` is itself treated as absent,
and a negative `max_value` triggers the construction-time repair that
overwrites the `0` lower bound.) -/
theorem C4_min_zero_takes_max_branch (mx v : Int) (h : 0 < mx) :
    numericInit (some 0) (some mx) = .ok ⟨some 0, some mx⟩ ∧
    (numericValidate ⟨some 0, some mx⟩ v = none ↔ v < mx) := by
  constructor
  · simp only [numericInit]
    rw [if_neg (by omega)]
  · have hb : mx ≠ 0 := by omega
    simp [numericValidate, truthy, hb]

/-- Witness for C4 (amended) at `max_value = 7`, `v = 3`. -/
theorem C4_min_zero_takes_max_branch_witness :
    numericInit (some 0) (some 7) = .ok ⟨some 0, some 7⟩ ∧
    (numericValidate ⟨some 0, some 7⟩ 3 = none ↔ (3 : Int) < 7) :=
  C4_min_zero_takes_max_branch 7 3 (by decide)

/-- Claim C9. After a raw string `s` is stored in a `HashedField`,
reading `value` returns `hash(stored)` - an integer - and is never equal
to the literal string `s`. -/
theorem C9_hashed_read (h : Option String → Int) (st : FieldState String)
    (s : String) (hs : st.value = some s) :
    hashedGet h st = .intVal (h (some s)) ∧ hashedGet h st ≠ .strVal s := by
  constructor
  · rw [hashedGet, hs]
  · rw [hashedGet]
    intro hc
    cases hc

/-- Witness for C9 with the stored string `"secret"` and a concrete hash
function. -/
theorem C9_hashed_read_witness :
    hashedGet (fun _ => 7) ⟨"pwd", none, some "secret"⟩ = .intVal 7 ∧
    hashedGet (fun _ => 7) ⟨"pwd", none, some "secret"⟩ ≠ .strVal "secret" :=
  C9_hashed_read (fun _ => 7) ⟨"pwd", none, some "secret"⟩ "secret" rfl

/-- Claim C10. For a `DateField` with `later_than` set, `earlier_than`
unset and no hint, the prompt builder formats `self.earlier_than` - which
is `None` - so the prompt raises `AttributeError`, and `render` (which
catches only `ValidateError`) propagates it before reading any input:
the field never completes a render cycle, whatever the input stream. -/
theorem C10_later_only_prompt_crashes
    (conv : String → Except ValidateError Int) (inputs : List String)
    (label : String) (l : Int) (v0 : Option Int) :
    dateFormattedInput ⟨label, none, none, some l, v0⟩ = .error .attributeError ∧
    dateRender conv inputs ⟨label, none, none, some l, v0⟩ = .error .attributeError := by
  have hp : dateFormattedInput ⟨label, none, none, some l, v0⟩ = .error .attributeError := by
    simp [dateFormattedInput, strftimeOpt, Except.map]
  refine ⟨hp, ?_⟩
  cases inputs with
  | nil => simp [dateRender, hp]
  | cons raw rest => simp [dateRender, hp]

/-- Claim C2. Assigning to `value` either stores a value that passed both
conversion and validation, or raises the `ValidateError` and leaves the
stored value unchanged - so the stored value is always either unset or
the last fully validated value. -/
theorem C2_value_setter_gate {V : Type} (conv : String → Except ValidateError V)
    (val : V → Option ValidateError) (st : FieldState V) (raw : String) :
    ((setValue conv val st raw).2 = none →
      ∃ v, conv raw = .ok v ∧ val v = none ∧
        (setValue conv val st raw).1 = { st with value := some v }) ∧
    (∀ e, (setValue conv val st raw).2 = some e →
      (setValue conv val st raw).1 = st) := by
  constructor
  · intro h
    exact (setValue_ok_iff conv val st _ raw).mp (by rw [← h])
  · intro e h
    exact setValue_error_fst conv val st _ raw e (by rw [← h])

/-- Witness for C2: the raw input `"7"` converts and validates, and is
stored. -/
theorem C2_value_setter_gate_witness :
    (setValue intConvert (fun _ => none) ⟨"Age", none, none⟩ "7").2 = none ∧
    ∃ v, intConvert "7" = .ok v ∧ (fun _ => (none : Option ValidateError)) v = none ∧
      (setValue intConvert (fun _ => none) ⟨"Age", none, none⟩ "7").1 =
        { (⟨"Age", none, none⟩ : FieldState Int) with value := some v } :=
  ⟨rfl, (C2_value_setter_gate intConvert (fun _ => none) ⟨"Age", none, none⟩ "7").1 rfl⟩

/-- Claim C6. `DateField` construction raises the fatal `ValueError`
(modelled as a `PyFatal`, a different type from `ValidateError`) iff both
bounds are given and `later_than` is not strictly below `earlier_than`;
with any other bound configuration it succeeds, and with a valid interval
a parsed date `v` is accepted by `validate` iff
`later_than < v < earlier_than` strictly. -/
theorem C6_date_field_bounds (label : String) (hint : Option String) (e l : Int) :
    (dateInit label (some e) (some l) hint = .error .valueError ↔ ¬ (l < e)) ∧
    (l < e → dateInit label (some e) (some l) hint =
      .ok ⟨label, hint, some e, some l, none⟩) ∧
    dateInit label (some e) none hint = .ok ⟨label, hint, some e, none, none⟩ ∧
    dateInit label none (some l) hint = .ok ⟨label, hint, none, some l, none⟩ ∧
    dateInit label none none hint = .ok ⟨label, hint, none, none, none⟩ ∧
    (∀ v : Int, l < e →
      (dateValidate ⟨label, hint, some e, some l, none⟩ v = none ↔ l < v ∧ v < e)) := by
  refine ⟨?_, ?_, rfl, rfl, rfl, ?_⟩
  · by_cases h : l < e <;> simp [dateInit, h]
  · intro h
    simp [dateInit, h]
  · intro v h
    simp [dateValidate]

/-- Witness for C6 with `later_than = 0 < earlier_than = 10` and the
value `5`. -/
theorem C6_date_field_bounds_witness :
    dateInit "d" (some 10) (some 0) none = .ok ⟨"d", none, some 10, some 0, none⟩ ∧
    (dateValidate ⟨"d", none, some 10, some 0, none⟩ 5 = none ↔
      (0 : Int) < 5 ∧ (5 : Int) < 10) :=
  ⟨(C6_date_field_bounds "d" none 10 0).2.1 (by decide),
   (C6_date_field_bounds "d" none 10 0).2.2.2.2.2 5 (by decide)⟩

/-- Claim C7. If `render` terminates on an input stream then some first
input index `k` converted and validated successfully: every earlier
attempt raised a `ValidateError` (each printing exactly one line, so the
print log grows by `k`), the loop state was unchanged by the failures,
and the final state stores the validated value of input `k`. By the
return type of `render`, a `ValidateError` never escapes the loop; when
the stream runs out the loop is still re-prompting (`none`), never an
error. -/
theorem C7_render_loop {V : Type} (conv : String → Except ValidateError V)
    (val : V → Option ValidateError) (inputs : List String)
    (st stF : FieldState V) (printed log : List String)
    (h : render conv val inputs st printed = some (stF, log)) :
    ∃ k, ∃ hk : k < inputs.length,
      (∀ j, ∀ hj : j < k,
        ((setValue conv val st (inputs.get ⟨j, Nat.lt_trans hj hk⟩)).2).isSome = true) ∧
      setValue conv val st (inputs.get ⟨k, hk⟩) = (stF, none) ∧
      log.length = printed.length + k ∧
      ∃ v, conv (inputs.get ⟨k, hk⟩) = .ok v ∧ val v = none ∧
        stF = { st with value := some v } := by
  induction inputs generalizing st printed with
  | nil => simp [render] at h
  | cons raw rest ih =>
    simp only [render] at h
    split at h
    · rename_i st1 hsv
      simp only [Option.some.injEq, Prod.mk.injEq] at h
      obtain ⟨h1, h2⟩ := h
      refine ⟨0, Nat.succ_pos _, ?_, ?_, ?_, ?_⟩
      · intro j hj
        exact absurd hj (Nat.not_lt_zero j)
      · show setValue conv val st raw = (stF, none)
        rw [hsv, h1]
      · rw [← h2]
        simp
      · obtain ⟨v, hv1, hv2, hv3⟩ := (setValue_ok_iff conv val st st1 raw).mp hsv
        refine ⟨v, hv1, hv2, ?_⟩
        rw [← h1]
        exact hv3
    · rename_i st1 e hsv
      have hst : st1 = st := setValue_error_fst conv val st st1 raw e hsv
      subst hst
      obtain ⟨k, hk, hfail, hsucc, hlen, v, hv1, hv2, hv3⟩ :=
        ih st1 (printed ++ [e.msg]) h
      refine ⟨k + 1, Nat.succ_lt_succ hk, ?_, hsucc, ?_, v, hv1, hv2, hv3⟩
      · intro j hj
        cases j with
        | zero =>
          show ((setValue conv val st1 raw).2).isSome = true
          rw [hsv]
          rfl
        | succ j => exact hfail j (Nat.lt_of_succ_lt_succ hj)
      · simp only [List.length_append, List.length_singleton] at hlen
        omega

/-- Witness for C7: the stream types `"x"` (rejected by conversion, one
printed line) and then `"7"` (accepted and stored). -/
theorem C7_render_loop_witness :
    render intConvert (fun _ => none) ["x", "7"] ⟨"Age", none, none⟩ [] =
      some (⟨"Age", none, some 7⟩,
        ["value_type declared does not match with the provided value"]) ∧
    ∃ k, ∃ hk : k < (["x", "7"] : List String).length,
      (∀ j, ∀ hj : j < k,
        ((setValue intConvert (fun _ => none) (⟨"Age", none, none⟩ : FieldState Int)
          ((["x", "7"] : List String).get ⟨j, Nat.lt_trans hj hk⟩)).2).isSome = true) ∧
      setValue intConvert (fun _ => none) (⟨"Age", none, none⟩ : FieldState Int)
        ((["x", "7"] : List String).get ⟨k, hk⟩) = (⟨"Age", none, some 7⟩, none) ∧
      (["value_type declared does not match with the provided value"] : List String).length =
        ([] : List String).length + k ∧
      ∃ v, intConvert ((["x", "7"] : List String).get ⟨k, hk⟩) = .ok v ∧
        (fun _ => (none : Option ValidateError)) v = none ∧
        (⟨"Age", none, some 7⟩ : FieldState Int) =
          { (⟨"Age", none, none⟩ : FieldState Int) with value := some v } :=
  ⟨rfl, C7_render_loop intConvert (fun _ => none) ["x", "7"] ⟨"Age", none, none⟩
    ⟨"Age", none, some 7⟩ []
    ["value_type declared does not match with the provided value"] rfl⟩

/-- Characterization of the field loop of `Form.show`: when every
registered field completes its render, the result mapping has one entry
per field, keyed by the field names in order, holding each field's
post-render stored value. -/
theorem showFields_spec {V : Type} (conv : String → Except ValidateError V)
    (val : V → Option ValidateError)
    (fields : List (String × FieldState V × List String))
    (m : List (String × Option V))
    (h : showFields conv val fields = some m) :
    m.length = fields.length ∧
    m.map Prod.fst = fields.map Prod.fst ∧
    ∀ i, ∀ hi : i < fields.length, ∀ hm : i < m.length,
      ∃ p, render conv val (fields.get ⟨i, hi⟩).2.2 (fields.get ⟨i, hi⟩).2.1 [] = some p ∧
        (m.get ⟨i, hm⟩).2 = p.1.value := by
  induction fields generalizing m with
  | nil =>
    simp only [showFields, Option.some.injEq] at h
    subst h
    refine ⟨rfl, rfl, ?_⟩
    intro i hi hm
    exact absurd hi (Nat.not_lt_zero i)
  | cons f rest ih =>
    obtain ⟨n, st, ins⟩ := f
    simp only [showFields] at h
    cases hr : render conv val ins st [] with
    | none =>
      rw [hr] at h
      cases h
    | some p =>
      rw [hr] at h
      cases hs : showFields conv val rest with
      | none =>
        rw [hs] at h
        cases h
      | some m2 =>
        rw [hs] at h
        simp only [Option.map_some', Option.some.injEq] at h
        subst h
        obtain ⟨hl, hn, hv⟩ := ih m2 hs
        refine ⟨by simp [hl], by simp [hn], ?_⟩
        intro i hi hm
        cases i with
        | zero => exact ⟨p, hr, rfl⟩
        | succ j => exact hv j (Nat.lt_of_succ_lt_succ hi) (Nat.lt_of_succ_lt_succ hm)

/-- Counterexample to claim C8 as stated: when `form_name` was never
assigned, `show()` does not skip the banner and proceed - reading
`self.form_name` raises `AttributeError`, so even an empty form yields no
mapping. -/
theorem C8_absent_name_counterexample :
    formShow none (fun r => .ok r) (fun _ => none) [] = .error .attributeError ∧
    formShow none (fun r => .ok r) (fun _ => none) [] ≠
      .ok (some (([] : List String), ([] : List (String × Option String)))) := by
  refine ⟨rfl, ?_⟩
  intro hc
  rw [show formShow none (fun r : String => Except.ok r) (fun _ => none) [] =
    .error .attributeError from rfl] at hc
  cases hc

/-- Claim C8, amended: when `form_name` is assigned, `show()` prints the
uppercase banner built from it (and skips the banner only for a falsy,
empty string), then renders every registered field in order and returns
the mapping with one entry per field, keyed by field name and holding the
field's post-render value; a `form_name` that was never assigned instead
raises `AttributeError`. -/
theorem C8_show_banner_and_mapping {V : Type}
    (conv : String → Except ValidateError V) (val : V → Option ValidateError)
    (s : String) (fields : List (String × FieldState V × List String))
    (m : List (String × Option V))
    (h : showFields conv val fields = some m) :
    formShow (some s) conv val fields =
      .ok (some ((if s = "" then []
        else ["==========" ++ s.toUpper ++ "=========="]), m)) ∧
    m.length = fields.length ∧
    m.map Prod.fst = fields.map Prod.fst ∧
    ∀ i, ∀ hi : i < fields.length, ∀ hm : i < m.length,
      ∃ p, render conv val (fields.get ⟨i, hi⟩).2.2 (fields.get ⟨i, hi⟩).2.1 [] = some p ∧
        (m.get ⟨i, hm⟩).2 = p.1.value := by
  have hs := showFields_spec conv val fields m h
  refine ⟨?_, hs.1, hs.2.1, hs.2.2⟩
  unfold formShow showName
  by_cases he : s = ""
  · subst he
    simp [h, Except.map]
  · simp [he, h, Except.map]

/-- Witness for C8: a one-field form named `"login"` whose single field
reads `"Alice"`. -/
theorem C8_show_banner_and_mapping_witness :
    showFields (fun r => .ok r) (fun _ => none)
      [("name", ⟨"Name", none, none⟩, ["Alice"])] = some [("name", some "Alice")] ∧
    (formShow (some "login") (fun r => .ok r) (fun _ => none)
        [("name", ⟨"Name", none, none⟩, ["Alice"])] =
      .ok (some ((if "login" = "" then []
        else ["==========" ++ "login".toUpper ++ "=========="]),
        [("name", some "Alice")])) ∧
    ([("name", some "Alice")] : List (String × Option String)).length =
      ([("name", ⟨"Name", none, none⟩, ["Alice"])] :
        List (String × FieldState String × List String)).length ∧
    ([("name", some "Alice")] : List (String × Option String)).map Prod.fst =
      ([("name", ⟨"Name", none, none⟩, ["Alice"])] :
        List (String × FieldState String × List String)).map Prod.fst ∧
    ∀ i, ∀ hi : i < ([("name", ⟨"Name", none, none⟩, ["Alice"])] :
        List (String × FieldState String × List String)).length,
      ∀ hm : i < ([("name", some "Alice")] : List (String × Option String)).length,
      ∃ p, render (fun r => .ok r) (fun _ => none)
          (([("name", ⟨"Name", none, none⟩, ["Alice"])] :
            List (String × FieldState String × List String)).get ⟨i, hi⟩).2.2
          (([("name", ⟨"Name", none, none⟩, ["Alice"])] :
            List (String × FieldState String × List String)).get ⟨i, hi⟩).2.1 [] = some p ∧
        (([("name", some "Alice")] : List (String × Option String)).get ⟨i, hm⟩).2 =
          p.1.value) :=
  ⟨rfl, C8_show_banner_and_mapping (fun r => .ok r) (fun _ => none) "login"
    [("name", ⟨"Name", none, none⟩, ["Alice"])] [("name", some "Alice")] rfl⟩

end TuiForms
